import Mathlib

/-!
Verification of the Ruten API proxy (`app.py`): a Flask service that
forwards browser requests to the Ruten partner API, signing each upstream
call with HMAC-SHA256 over `SALT_KEY + full_url + timestamp`.

The embedding models:
  * UTF-8 encoding of strings (inputs are encoded with `.encode('utf-8')`);
  * SHA-256 and HMAC-SHA256 (FIPS 180-4 / RFC 2104), executable over `List Nat` bytes;
  * Python's `urllib.parse.urlencode` with its default `quote_plus` quoting;
  * Python's `sorted` on `(key, value)` string pairs;
  * `_make_ruten_request`, `ruten_proxy` and `verify_credentials` from `app.py`,
    with the HTTP transport (`requests.get`) and the JSON body parse
    (`response.json()`) supplied as semantic parameters, since those live in
    external libraries.
-/

set_option maxRecDepth 100000

namespace Ruten

/-! ## Bytes and hex rendering -/

/-- 32-bit truncation, `n % 2^32`. -/
def w32 (n : Nat) : Nat := n % 4294967296

/-- UTF-8 encoding of a single code point (mirrors `str.encode('utf-8')`). -/
def utf8Char (c : Char) : List Nat :=
  let n := c.toNat
  if n < 128 then [n]
  else if n < 2048 then [192 + n / 64, 128 + n % 64]
  else if n < 65536 then [224 + n / 4096, 128 + (n / 64) % 64, 128 + n % 64]
  else [240 + n / 262144, 128 + (n / 4096) % 64, 128 + (n / 64) % 64, 128 + n % 64]

/-- UTF-8 encoding of a string as a byte list. -/
def utf8Encode (s : String) : List Nat := (s.data.map utf8Char).flatten

/-- Lowercase hexadecimal digit, as produced by Python's `hexdigest()`. -/
def hexDigitLower (n : Nat) : Char :=
  if n < 10 then Char.ofNat (48 + n) else Char.ofNat (87 + n)

/-- Uppercase hexadecimal digit, as produced by `urllib.parse.quote`. -/
def hexDigitUpper (n : Nat) : Char :=
  if n < 10 then Char.ofNat (48 + n) else Char.ofNat (55 + n)

/-- Render a byte list as a lowercase hex string (Python `hexdigest()`). -/
def bytesToHexLower (bs : List Nat) : String :=
  String.mk ((bs.map (fun b => [hexDigitLower (b / 16), hexDigitLower (b % 16)])).flatten)

/-- Is `c` a lowercase hexadecimal digit? -/
def isLowerHexDigit (c : Char) : Bool :=
  (48 ≤ c.toNat && c.toNat ≤ 57) || (97 ≤ c.toNat && c.toNat ≤ 102)

/-- Big-endian byte rendering of `n` on `k` bytes. -/
def natToBytesBE : Nat → Nat → List Nat
  | 0, _ => []
  | k + 1, n => natToBytesBE k (n / 256) ++ [n % 256]

/-! ## SHA-256 (FIPS 180-4) -/

/-- SHA-256 round constants (FIPS 180-4 §4.2.2, written in decimal). -/
def sha256K : List Nat :=
  [1116352408, 1899447441, 3049323471, 3921009573, 961987163,
   1508970993, 2453635748, 2870763221, 3624381080, 310598401,
   607225278, 1426881987, 1925078388, 2162078206, 2614888103,
   3248222580, 3835390401, 4022224774, 264347078, 604807628,
   770255983, 1249150122, 1555081692, 1996064986, 2554220882,
   2821834349, 2952996808, 3210313671, 3336571891, 3584528711,
   113926993, 338241895, 666307205, 773529912, 1294757372,
   1396182291, 1695183700, 1986661051, 2177026350, 2456956037,
   2730485921, 2820302411, 3259730800, 3345764771, 3516065817,
   3600352804, 4094571909, 275423344, 430227734, 506948616,
   659060556, 883997877, 958139571, 1322822218, 1537002063,
   1747873779, 1955562222, 2024104815, 2227730452, 2361852424,
   2428436474, 2756734187, 3204031479, 3329325298]

/-- Rotate a 32-bit word right by `n` bits. -/
def rotr32 (n x : Nat) : Nat := w32 ((x >>> n) ||| (x <<< (32 - n)))

/-- FIPS 180-4 Σ₀. -/
def bigSigma0 (x : Nat) : Nat := (rotr32 2 x) ^^^ (rotr32 13 x) ^^^ (rotr32 22 x)

/-- FIPS 180-4 Σ₁. -/
def bigSigma1 (x : Nat) : Nat := (rotr32 6 x) ^^^ (rotr32 11 x) ^^^ (rotr32 25 x)

/-- FIPS 180-4 σ₀. -/
def smallSigma0 (x : Nat) : Nat := (rotr32 7 x) ^^^ (rotr32 18 x) ^^^ (x >>> 3)

/-- FIPS 180-4 σ₁. -/
def smallSigma1 (x : Nat) : Nat := (rotr32 17 x) ^^^ (rotr32 19 x) ^^^ (x >>> 10)

/-- FIPS 180-4 Ch, with the complement taken by xor against the 32-bit mask. -/
def chFn (x y z : Nat) : Nat := (x &&& y) ^^^ ((4294967295 ^^^ x) &&& z)

/-- FIPS 180-4 Maj. -/
def majFn (x y z : Nat) : Nat := (x &&& y) ^^^ (x &&& z) ^^^ (y &&& z)

/-- Pad a message per FIPS 180-4: append `0x80`, zeros to 56 mod 64, then the
bit length on 8 big-endian bytes. -/
def sha256Pad (msg : List Nat) : List Nat :=
  let len := msg.length
  let zeros := (119 - len % 64) % 64
  msg ++ [128] ++ List.replicate zeros 0 ++ natToBytesBE 8 (8 * len)

/-- Group 4 consecutive bytes into big-endian 32-bit words. -/
def bytesToWords : List Nat → List Nat
  | a :: b :: c :: d :: rest =>
      (a * 16777216 + b * 65536 + c * 256 + d) :: bytesToWords rest
  | _ => []

/-- Extend the 16-word schedule with `fuel` more words. -/
def extendSchedule : Nat → List Nat → List Nat
  | 0, w => w
  | fuel + 1, w =>
      let n := w.length
      let nw := w32 (smallSigma1 (w.getD (n - 2) 0) + w.getD (n - 7) 0 +
                     smallSigma0 (w.getD (n - 15) 0) + w.getD (n - 16) 0)
      extendSchedule fuel (w ++ [nw])

/-- Working state of the compression function. -/
structure Sha256State where
  a : Nat
  b : Nat
  c : Nat
  d : Nat
  e : Nat
  f : Nat
  g : Nat
  h : Nat

/-- SHA-256 initial hash value (FIPS 180-4 §5.3.3, in decimal). -/
def sha256Init : Sha256State :=
  ⟨1779033703, 3144134277, 1013904242, 2773480762,
   1359893119, 2600822924, 528734635, 1541459225⟩

/-- One pass of the 64 compression rounds, consuming `(Kᵢ, Wᵢ)` pairs. -/
def compressRounds : List (Nat × Nat) → Sha256State → Sha256State
  | [], st => st
  | (ki, wi) :: rest, st =>
      let t1 := w32 (st.h + bigSigma1 st.e + chFn st.e st.f st.g + ki + wi)
      let t2 := w32 (bigSigma0 st.a + majFn st.a st.b st.c)
      compressRounds rest
        ⟨w32 (t1 + t2), st.a, st.b, st.c, w32 (st.d + t1), st.e, st.f, st.g⟩

/-- Compress one 64-byte block into the chaining state. -/
def sha256Block (block : List Nat) (st : Sha256State) : Sha256State :=
  let w := extendSchedule 48 (bytesToWords block)
  let r := compressRounds (sha256K.zip w) st
  ⟨w32 (st.a + r.a), w32 (st.b + r.b), w32 (st.c + r.c), w32 (st.d + r.d),
   w32 (st.e + r.e), w32 (st.f + r.f), w32 (st.g + r.g), w32 (st.h + r.h)⟩

/-- Process the padded message 64 bytes at a time (`fuel` bounds the number of
blocks; structural recursion keeps the definition kernel-reducible). -/
def sha256Blocks : Nat → List Nat → Sha256State → Sha256State
  | 0, _, st => st
  | _ + 1, [], st => st
  | fuel + 1, bytes, st =>
      sha256Blocks fuel (bytes.drop 64) (sha256Block (bytes.take 64) st)

/-- SHA-256 digest of a byte list, as 32 bytes. -/
def sha256 (msg : List Nat) : List Nat :=
  let padded := sha256Pad msg
  let st := sha256Blocks padded.length padded sha256Init
  natToBytesBE 4 st.a ++ natToBytesBE 4 st.b ++ natToBytesBE 4 st.c ++
  natToBytesBE 4 st.d ++ natToBytesBE 4 st.e ++ natToBytesBE 4 st.f ++
  natToBytesBE 4 st.g ++ natToBytesBE 4 st.h

/-! ## HMAC-SHA256 (RFC 2104) -/

/-- HMAC-SHA256 of `msg` keyed by `key`, as 32 bytes. -/
def hmacSha256 (key msg : List Nat) : List Nat :=
  let k0 := if 64 < key.length then sha256 key else key
  let kp := k0 ++ List.replicate (64 - k0.length) 0
  let ipadded := kp.map (fun b => b ^^^ 54)
  let opadded := kp.map (fun b => b ^^^ 92)
  sha256 (opadded ++ sha256 (ipadded ++ msg))

/-- HMAC-SHA256 rendered as the lowercase hex string `hexdigest()` returns. -/
def hmacSha256Hex (key msg : List Nat) : String :=
  bytesToHexLower (hmacSha256 key msg)

/-! ## `urllib.parse.urlencode`

`urlencode` with its defaults quotes every key and value with `quote_plus`:
bytes in the always-safe set (ASCII letters, digits, `_`, `.`, `-`, `~`) pass
through, a space becomes `+`, and every other byte becomes `%XX` with
uppercase hex, working over the UTF-8 encoding. -/

/-- Bytes `quote` never escapes: ASCII alphanumerics and `_ . - ~`. -/
def alwaysSafeByte (b : Nat) : Bool :=
  (65 ≤ b && b ≤ 90) || (97 ≤ b && b ≤ 122) || (48 ≤ b && b ≤ 57) ||
  b == 95 || b == 46 || b == 45 || b == 126

/-- Quoting of a single byte under `quote_plus`. -/
def quotePlusByte (b : Nat) : List Char :=
  if alwaysSafeByte b then [Char.ofNat b]
  else if b == 32 then ['+']
  else ['%', hexDigitUpper (b / 16), hexDigitUpper (b % 16)]

/-- Python's `quote_plus` over a string's UTF-8 bytes. -/
def quotePlus (s : String) : String :=
  String.mk (((utf8Encode s).map quotePlusByte).flatten)

/-- Python's `urlencode` on a sequence of key/value string pairs. -/
def urlencode (ps : List (String × String)) : String :=
  String.intercalate "&" (ps.map (fun kv => quotePlus kv.1 ++ "=" ++ quotePlus kv.2))

/-! ## Python's `sorted` on `(key, value)` pairs

`sorted(params.items())` sorts the pairs by Python tuple comparison: first the
key, then (on equal keys) the value, each compared lexicographically by code
point.  This is a linear order on pairs, so the sorted list is the unique
sorted permutation of the input and any stable or unstable sort produces it;
we embed it as an insertion sort. -/

/-- Lexicographic comparison of character lists by code point, the order
Python uses on `str`.  Executable so sorting reduces in the kernel. -/
def listLtB : List Char → List Char → Bool
  | _, [] => false
  | [], _ :: _ => true
  | a :: as, b :: bs =>
      Nat.blt a.toNat b.toNat || (a.toNat == b.toNat && listLtB as bs)

/-- Python string comparison `s < t`. -/
def strLtB (s t : String) : Bool := listLtB s.data t.data

/-- Python tuple comparison `(p₁, p₂) <= (q₁, q₂)` on string pairs: `<` on the
keys, or equal keys and `<=` (i.e. not `>`) on the values. -/
def pairLeB (p q : String × String) : Bool :=
  strLtB p.1 q.1 || (p.1 == q.1 && !(strLtB q.2 p.2))

/-- The order `sorted(params.items())` sorts by, as a relation. -/
def pairLe (p q : String × String) : Prop := pairLeB p q = true

instance : DecidableRel pairLe := fun p q =>
  inferInstanceAs (Decidable (pairLeB p q = true))

/-- `sorted(params.items())`: the pairs in Python tuple order. -/
def pySorted (l : List (String × String)) : List (String × String) :=
  l.insertionSort pairLe

/-! ## JSON values

The upstream response body, once parsed by `response.json()`, is a Python
value decoded from JSON.  JSON numbers are modelled as integers (no claim
involves numbers). -/

inductive Json where
  | null
  | bool (b : Bool)
  | num (n : Int)
  | str (s : String)
  | arr (xs : List Json)
  | obj (kvs : List (String × Json))

/-- Python `repr` of a decoded JSON value (fuel-indexed for structural
recursion; the fuel is spent one unit per nesting level). -/
def pyReprFuel : Nat → Json → String
  | _, Json.null => "None"
  | _, Json.bool b => if b then "True" else "False"
  | _, Json.num n => toString n
  | _, Json.str s => "\x27" ++ s ++ "\x27"
  | 0, _ => ""
  | f + 1, Json.arr xs =>
      "[" ++ String.intercalate ", " (xs.map (pyReprFuel f)) ++ "]"
  | f + 1, Json.obj kvs =>
      "\x7b" ++ String.intercalate ", "
        (kvs.map (fun kv => "\x27" ++ kv.1 ++ "\x27: " ++ pyReprFuel f kv.2)) ++ "\x7d"

/-- Python `str()` of a decoded JSON value, as interpolated by an f-string.
Containers render with `repr`; the fuel mirrors Python's default recursion
limit of 1000 (deeper nesting raises `RecursionError` in Python as well). -/
def pyStr : Json → String
  | Json.str s => s
  | Json.null => "None"
  | Json.bool b => if b then "True" else "False"
  | Json.num n => toString n
  | j => pyReprFuel 1000 j

/-! ## The proxy (`app.py`)

`requests.get` and `response.json()` are external libraries; the transport is
supplied as a function from the issued request to its outcome.  `Transport.
response st jsonBody` models a completed HTTP response of status `st` whose
`.json()` parse gives `jsonBody` (`.error e` carries the `str()` of the decode
exception); `Transport.netError d` models a transport-level exception
(timeout, DNS, connection refused/reset) with `str()` equal to `d`. -/

/-- The three environment credentials, `os.getenv` results (`none` = unset). -/
structure Config where
  API_KEY : Option String
  SECRET_KEY : Option String
  SALT_KEY : Option String

/-- Python truthiness of an optional string: `None` and `""` are falsy. -/
def truthy : Option String → Bool
  | none => false
  | some s => !(s == "")

/-- `all([API_KEY, SECRET_KEY, SALT_KEY])`. -/
def credsOk (cfg : Config) : Bool :=
  truthy cfg.API_KEY && truthy cfg.SECRET_KEY && truthy cfg.SALT_KEY

def BASE_URL : String := "https://partner.ruten.com.tw"

/-- An outbound HTTP request as issued by `requests.get`. -/
structure HttpRequest where
  method : String
  url : String
  headers : List (String × String)
  timeout : Nat

/-- Outcome of one `requests.get` call. -/
inductive Transport where
  | response (status : Nat) (jsonBody : Except String Json)
  | netError (desc : String)

/-- Result of `_make_ruten_request`: the value returned or the exception
raised (with the data the caller's `except` block reads off it). -/
inductive MakeResult where
  | credsError (msg : String)
  | httpError (status : Nat) (jsonBody : Except String Json) (excStr : String)
  | jsonDecodeError (excStr : String)
  | networkError (desc : String)
  | ok (body : Json)

/-- Return value of `_make_ruten_request` together with the upstream HTTP
requests it attempted (for stating "zero upstream calls" properties). -/
structure MakeOutput where
  result : MakeResult
  calls : List HttpRequest

/-- `sign_string = f"{SALT_KEY}{full_url}{timestamp}"`. -/
def signString (saltKey fullUrl timestamp : String) : String :=
  saltKey ++ fullUrl ++ timestamp

/-- The signature: lowercase-hex HMAC-SHA256 of `sign_string` keyed by
`SECRET_KEY`, both UTF-8 encoded. -/
def signatureHex (secretKey saltKey fullUrl timestamp : String) : String :=
  hmacSha256Hex (utf8Encode secretKey) (utf8Encode (signString saltKey fullUrl timestamp))

/-- `full_url = f"{BASE_URL}{endpoint}?{query_string}"` with the canonically
sorted, URL-encoded query. -/
def fullUrlOf (endpoint : String) (params : List (String × String)) : String :=
  BASE_URL ++ endpoint ++ "?" ++ urlencode (pySorted params)

/-- Models the `str()` of the `requests.exceptions.HTTPError` raised by
`raise_for_status` ("404 Client Error: ... for url: ..."); the reason phrase
supplied by the response is abstracted away. -/
def httpErrorStr (status : Nat) (url : String) : String :=
  toString status ++ " Error for url: " ++ url

/-- `_make_ruten_request(endpoint, params)` from `app.py`.  `now` is
`int(time.time())` at the moment of the call; `net` is the HTTP transport.
`sorted(params.items())` feeds a dict whose iteration order is the sorted
order, so `urlencode` sees the sorted pairs. -/
def _make_ruten_request (cfg : Config) (now : Nat)
    (net : HttpRequest → Transport) (endpoint : String)
    (params : List (String × String)) : MakeOutput :=
  if !(credsOk cfg) then
    ⟨MakeResult.credsError "伺服器未設定露天 API 憑證", []⟩
  else
    let query_string := urlencode (pySorted params)
    let full_url := BASE_URL ++ endpoint ++ "?" ++ query_string
    let timestamp := toString now
    let signature :=
      signatureHex (cfg.SECRET_KEY.getD "") (cfg.SALT_KEY.getD "") full_url timestamp
    let headers := [("User-Agent", "Ruten-Proxy-App/1.0"),
                    ("X-RT-Key", cfg.API_KEY.getD ""),
                    ("X-RT-Timestamp", timestamp),
                    ("X-RT-Authorization", signature)]
    let req : HttpRequest := ⟨"GET", full_url, headers, 20⟩
    match net req with
    | Transport.netError d => ⟨MakeResult.networkError d, [req]⟩
    | Transport.response st jsonBody =>
        if 400 ≤ st ∧ st < 600 then
          ⟨MakeResult.httpError st jsonBody (httpErrorStr st full_url), [req]⟩
        else
          match jsonBody with
          | Except.ok j => ⟨MakeResult.ok j, [req]⟩
          | Except.error e => ⟨MakeResult.jsonDecodeError e, [req]⟩

/-- A Flask response body: `''` for the OPTIONS branch, a `jsonify` value
otherwise. -/
inductive Body where
  | empty
  | json (j : Json)

/-- A Flask response: status code and body. -/
structure Resp where
  status : Nat
  body : Body

/-- An inbound request: method and `request.args` (first value per key, in
insertion order, as Werkzeug's `args.get`/`args.items()` expose them). -/
structure Inbound where
  method : String
  args : List (String × String)

/-- Python `dict.setdefault`: insert `(k, v)` at the end unless `k` is
present. -/
def setdefault (params : List (String × String)) (k v : String) :
    List (String × String) :=
  match params.lookup k with
  | some _ => params
  | none => params ++ [(k, v)]

/-- The query parameters forwarded upstream: all args except `endpoint`, with
`status=all` defaulted for the product-list endpoint. -/
def requestParams (endpoint : String) (args : List (String × String)) :
    List (String × String) :=
  let params := args.filter (fun kv => !(kv.1 == "endpoint"))
  if endpoint == "/api/v1/product/list" then setdefault params "status" "all"
  else params

/-- The `message` computed by the `except` block of `ruten_proxy`: `str(e)`,
replaced for `HTTPError` by the upstream `error_msg` field when the body
parses as a JSON object (a non-object parse lacks `.get`, so the inner
`except: pass` keeps `str(e)`; a present field of any type is interpolated
with `str()`). -/
def errorMessage : MakeResult → String
  | MakeResult.credsError m => m
  | MakeResult.networkError d => d
  | MakeResult.jsonDecodeError e => e
  | MakeResult.httpError _ jsonBody excStr =>
      match jsonBody with
      | Except.ok (Json.obj kvs) =>
          match kvs.lookup "error_msg" with
          | some v => pyStr v
          | none => "露天 API 回傳了一個無法解析的錯誤"
      | _ => excStr
  | MakeResult.ok _ => ""

/-- The status code chosen by the `except` block: the upstream status for
`HTTPError`, 500 for everything else. -/
def errorStatus : MakeResult → Nat
  | MakeResult.httpError st _ _ => st
  | _ => 500

/-- The `/api/ruten` handler `ruten_proxy` from `app.py`, returning the Flask
response and the list of upstream requests attempted. -/
def ruten_proxy (cfg : Config) (now : Nat) (net : HttpRequest → Transport)
    (inb : Inbound) : Resp × List HttpRequest :=
  if inb.method == "OPTIONS" then (⟨200, Body.empty⟩, [])
  else
    let endpoint := inb.args.lookup "endpoint"
    if !(truthy endpoint) then
      (⟨400, Body.json (Json.obj
        [("message", Json.str "錯誤：未提供目標 \x27endpoint\x27 參數")])⟩, [])
    else
      let e := endpoint.getD ""
      let params := requestParams e inb.args
      let out := _make_ruten_request cfg now net e params
      match out.result with
      | MakeResult.ok j => (⟨200, Body.json j⟩, out.calls)
      | r => (⟨errorStatus r,
               Body.json (Json.obj
                 [("message", Json.str ("請求失敗: " ++ errorMessage r))])⟩,
              out.calls)

/-- The `/api/verify` handler `verify_credentials` from `app.py`. -/
def verify_credentials (cfg : Config) (now : Nat)
    (net : HttpRequest → Transport) (method : String) :
    Resp × List HttpRequest :=
  if method == "OPTIONS" then (⟨200, Body.empty⟩, [])
  else
    let out := _make_ruten_request cfg now net "/api/v1/product/list"
      [("status", "all"), ("offset", "1"), ("limit", "1")]
    match out.result with
    | MakeResult.ok _ =>
        (⟨200, Body.json (Json.obj
          [("message", Json.str "憑證有效！與露天 API 通訊成功。"),
           ("valid", Json.bool true)])⟩, out.calls)
    | r =>
        (⟨401, Body.json (Json.obj
          [("message", Json.str ("憑證無效或請求失敗: " ++ errorMessage r)),
           ("valid", Json.bool false)])⟩, out.calls)

/-- A fully configured credential set, for concrete witnesses. -/
def cfgGood : Config := ⟨some "AK", some "SK", some "SALT"⟩

/-- A credential set with the API key unset, for concrete witnesses. -/
def cfgBad : Config := ⟨none, some "SK", some "SALT"⟩

/-! ## Hash implementation validation -/

/-- FIPS 180-4 test vector: SHA-256 of "abc". -/
theorem sha256_abc :
    bytesToHexLower (sha256 (utf8Encode "abc")) =
      "ba7816bf8f01cfea414140de5dae2223b00361a396177a9cb410ff61f20015ad" := by
  decide

/-- RFC 4231 test case 2 for HMAC-SHA-256. -/
theorem hmac_rfc4231_case2 :
    hmacSha256Hex (utf8Encode "Jefe") (utf8Encode "what do ya want for nothing?") =
      "5bdcc146bf60754e6a042426089575c75a003f089d2739839dec58b964ec3843" := by
  decide

/-! ## The pair order is linear, so sorting is permutation-invariant -/

theorem blt_self_eq_false (n : Nat) : Nat.blt n n = false :=
  Bool.eq_false_iff.mpr (by simp [Nat.blt_eq])

theorem listLtB_nil (l : List Char) : listLtB l [] = false := by
  cases l <;> rfl

theorem listLtB_irrefl : ∀ l : List Char, listLtB l l = false
  | [] => rfl
  | a :: as => by
      simp [listLtB, listLtB_irrefl as, blt_self_eq_false]

theorem listLtB_trichotomy : ∀ l₁ l₂ : List Char,
    listLtB l₁ l₂ = true ∨ l₁ = l₂ ∨ listLtB l₂ l₁ = true
  | [], [] => Or.inr (Or.inl rfl)
  | [], _ :: _ => Or.inl rfl
  | _ :: _, [] => Or.inr (Or.inr rfl)
  | a :: as, b :: bs => by
      rcases Nat.lt_trichotomy a.toNat b.toNat with h | h | h
      · left; simp [listLtB, Nat.blt_eq, h]
      · have hab : a = b := Char.ext (UInt32.ext h)
        rcases listLtB_trichotomy as bs with h2 | h2 | h2
        · left; simp [listLtB, Nat.blt_eq, h, h2]
        · right; left; rw [hab, h2]
        · right; right; simp [listLtB, Nat.blt_eq, h.symm, h2]
      · right; right; simp [listLtB, Nat.blt_eq, h]

theorem listLtB_trans : ∀ l₁ l₂ l₃ : List Char, listLtB l₁ l₂ = true →
    listLtB l₂ l₃ = true → listLtB l₁ l₃ = true
  | _, l₂, [] => by simp [listLtB_nil]
  | [], [], _ :: _ => by simp [listLtB_nil]
  | [], _ :: _, _ :: _ => fun _ _ => rfl
  | _ :: _, [], _ :: _ => by simp [listLtB_nil]
  | a :: as, b :: bs, c :: cs => by
      simp only [listLtB, Bool.or_eq_true, Bool.and_eq_true, Nat.blt_eq,
        beq_iff_eq]
      rintro (h1 | ⟨e1, r1⟩) (h2 | ⟨e2, r2⟩)
      · exact Or.inl (h1.trans h2)
      · exact Or.inl (e2 ▸ h1)
      · exact Or.inl (e1 ▸ h2)
      · exact Or.inr ⟨e1.trans e2, listLtB_trans as bs cs r1 r2⟩

theorem listLtB_asymm {l₁ l₂ : List Char} (h : listLtB l₁ l₂ = true) :
    listLtB l₂ l₁ = false := by
  by_contra h2
  rw [Bool.not_eq_false] at h2
  have := listLtB_trans l₁ l₂ l₁ h h2
  rw [listLtB_irrefl] at this
  exact Bool.false_ne_true this

theorem strLtB_irrefl (s : String) : strLtB s s = false :=
  listLtB_irrefl s.data

theorem strLtB_asymm {s t : String} (h : strLtB s t = true) :
    strLtB t s = false :=
  listLtB_asymm h

theorem strLtB_trans {s t u : String} (h1 : strLtB s t = true)
    (h2 : strLtB t u = true) : strLtB s u = true :=
  listLtB_trans s.data t.data u.data h1 h2

theorem strLtB_trichotomy (s t : String) :
    strLtB s t = true ∨ s = t ∨ strLtB t s = true := by
  rcases listLtB_trichotomy s.data t.data with h | h | h
  · exact Or.inl h
  · exact Or.inr (Or.inl (String.ext h))
  · exact Or.inr (Or.inr h)

theorem string_eq_of_not_ltB {s t : String} (h1 : strLtB s t = false)
    (h2 : strLtB t s = false) : s = t := by
  rcases strLtB_trichotomy s t with h | h | h
  · rw [h1] at h; exact absurd h Bool.false_ne_true
  · exact h
  · rw [h2] at h; exact absurd h Bool.false_ne_true

instance : IsTotal (String × String) pairLe := by
  constructor
  intro p q
  show pairLeB p q = true ∨ pairLeB q p = true
  rcases strLtB_trichotomy p.1 q.1 with h | h | h
  · left; simp [pairLeB, h]
  · cases hv : strLtB q.2 p.2 with
    | false => left; simp [pairLeB, h, hv, strLtB_irrefl]
    | true =>
        right
        have hf : strLtB p.2 q.2 = false := strLtB_asymm hv
        simp [pairLeB, h, hf, strLtB_irrefl]
  · right; simp [pairLeB, h]

theorem pairLe_cases {p q : String × String} (h : pairLe p q) :
    strLtB p.1 q.1 = true ∨ (p.1 = q.1 ∧ strLtB q.2 p.2 = false) := by
  rw [pairLe, pairLeB, Bool.or_eq_true, Bool.and_eq_true] at h
  rcases h with h | ⟨e, v⟩
  · exact Or.inl h
  · exact Or.inr ⟨beq_iff_eq.mp e, by simpa using v⟩

instance : IsTrans (String × String) pairLe := by
  constructor
  intro p q r hpq hqr
  have hpq := pairLe_cases hpq
  have hqr := pairLe_cases hqr
  show pairLeB p r = true
  rcases hpq with h1 | ⟨e1, v1⟩
  · rcases hqr with h2 | ⟨e2, _⟩
    · simp [pairLeB, strLtB_trans h1 h2]
    · simp [pairLeB, e2 ▸ h1]
  · rcases hqr with h2 | ⟨e2, v2⟩
    · simp [pairLeB, e1 ▸ h2]
    · have e : p.1 = r.1 := e1.trans e2
      have v : strLtB r.2 p.2 = false := by
        by_contra hv
        rw [Bool.not_eq_false] at hv
        rcases strLtB_trichotomy q.2 p.2 with h | h | h
        · rw [h] at v1; exact Bool.noConfusion v1
        · rw [h] at v2; rw [hv] at v2
          exact Bool.noConfusion v2
        · have hrq : strLtB r.2 q.2 = true := strLtB_trans hv h
          rw [hrq] at v2; exact Bool.noConfusion v2
      simp [pairLeB, e, v, strLtB_irrefl]

instance : IsAntisymm (String × String) pairLe := by
  constructor
  intro p q hpq hqp
  rcases pairLe_cases hpq with h1 | ⟨e1, v1⟩
  · rcases pairLe_cases hqp with h2 | ⟨e2, _⟩
    · have hf : strLtB q.1 p.1 = false := strLtB_asymm h1
      rw [hf] at h2; exact absurd h2 Bool.false_ne_true
    · rw [e2, strLtB_irrefl] at h1; exact absurd h1 Bool.false_ne_true
  · rcases pairLe_cases hqp with h2 | ⟨_, v2⟩
    · rw [e1, strLtB_irrefl] at h2; exact absurd h2 Bool.false_ne_true
    · exact Prod.ext e1 (string_eq_of_not_ltB v2 v1)

/-- Sorting is permutation-invariant: two item lists with the same pairs sort
to the same list. -/
theorem pySorted_perm_invariant {l₁ l₂ : List (String × String)}
    (h : l₁.Perm l₂) : pySorted l₁ = pySorted l₂ :=
  List.eq_of_perm_of_sorted
    (((List.perm_insertionSort pairLe l₁).trans h).trans
      (List.perm_insertionSort pairLe l₂).symm)
    (List.sorted_insertionSort pairLe l₁)
    (List.sorted_insertionSort pairLe l₂)

/-! ## Digest bytes are bytes, so the hex rendering is lowercase hex -/

theorem natToBytesBE_lt : ∀ (k n : Nat), ∀ b ∈ natToBytesBE k n, b < 256
  | 0, n => by simp [natToBytesBE]
  | k + 1, n => by
      intro b hb
      rw [natToBytesBE] at hb
      rcases List.mem_append.mp hb with h | h
      · exact natToBytesBE_lt k _ b h
      · simp at h
        omega

theorem sha256_bytes_lt (msg : List Nat) : ∀ b ∈ sha256 msg, b < 256 := by
  intro b hb
  simp only [sha256, List.mem_append] at hb
  rcases hb with ((((((h | h) | h) | h) | h) | h) | h) | h <;>
    exact natToBytesBE_lt _ _ b h

theorem hmac_bytes_lt (key msg : List Nat) : ∀ b ∈ hmacSha256 key msg, b < 256 := by
  intro b hb
  simp only [hmacSha256] at hb
  exact sha256_bytes_lt _ b hb

theorem isLowerHexDigit_hexDigitLower {n : Nat} (h : n < 16) :
    isLowerHexDigit (hexDigitLower n) = true := by
  interval_cases n <;> decide

theorem bytesToHexLower_all {bs : List Nat} (h : ∀ b ∈ bs, b < 256) :
    (bytesToHexLower bs).data.all isLowerHexDigit = true := by
  show ((bs.map (fun b => [hexDigitLower (b / 16), hexDigitLower (b % 16)])).flatten).all
    isLowerHexDigit = true
  induction bs with
  | nil => rfl
  | cons b bs ih =>
      have hb : b < 256 := h b (List.mem_cons_self b bs)
      simp only [List.map_cons, List.flatten_cons, List.all_append, List.all_cons,
        List.all_nil, Bool.and_eq_true]
      refine ⟨⟨isLowerHexDigit_hexDigitLower (by omega),
        isLowerHexDigit_hexDigitLower (by omega), trivial⟩, ?_⟩
      exact ih (fun x hx => h x (List.mem_cons_of_mem b hx))

/-! ## Shared handler-evaluation helper -/

/-- With credentials present, `_make_ruten_request` attempts exactly one
upstream request: a GET to the canonical URL with the four signed headers and
a 20-second timeout, whatever the transport outcome. -/
theorem make_ruten_calls (cfg : Config) (hc : credsOk cfg = true) (now : Nat)
    (net : HttpRequest → Transport) (endpoint : String)
    (params : List (String × String)) :
    (_make_ruten_request cfg now net endpoint params).calls =
      [⟨"GET", fullUrlOf endpoint params,
        [("User-Agent", "Ruten-Proxy-App/1.0"),
         ("X-RT-Key", cfg.API_KEY.getD ""),
         ("X-RT-Timestamp", toString now),
         ("X-RT-Authorization",
          signatureHex (cfg.SECRET_KEY.getD "") (cfg.SALT_KEY.getD "")
            (fullUrlOf endpoint params) (toString now))], 20⟩] := by
  unfold _make_ruten_request
  simp only [hc, Bool.not_true, Bool.false_eq_true, if_false]
  cases hn : net _ with
  | netError d => simp [hn, fullUrlOf]
  | response st body =>
      by_cases hst : 400 ≤ st ∧ st < 600
      · simp [hn, hst, fullUrlOf]
      · cases body <;> simp [hn, hst, fullUrlOf]

/-- Every `ruten_proxy` call attempts at most one upstream request. -/
theorem ruten_proxy_calls_le_one (cfg : Config) (now : Nat)
    (net : HttpRequest → Transport) (inb : Inbound) :
    ((ruten_proxy cfg now net inb).2).length ≤ 1 := by
  unfold ruten_proxy
  by_cases hm : (inb.method == "OPTIONS") = true
  · simp [hm]
  · simp only [hm]
    by_cases ht : truthy (inb.args.lookup "endpoint") = true
    · simp only [ht]
      unfold _make_ruten_request
      by_cases hcr : credsOk cfg = true
      · simp only [hcr, Bool.not_true]
        cases hn : net _ with
        | netError d => simp [hn]
        | response st body =>
            by_cases hst : 400 ≤ st ∧ st < 600
            · simp [hn, hst]
            · cases body <;> simp [hn, hst]
      · simp only [Bool.not_eq_true] at hcr
        simp [hcr]
    · simp only [Bool.not_eq_true] at ht
      simp [ht]

/-! ## Claims -/

/-- C1 counterexample: with valid credentials, a non-empty endpoint and a
transport-level network failure, the proxy responds 500, not 503 as the claim
states — the generic `except` block keeps its default `status_code = 500` for
every exception that is not an `HTTPError`. -/
theorem C1_counterexample_503 :
    credsOk cfgGood = true ∧
    (ruten_proxy cfgGood 1700000000 (fun _ => Transport.netError "Connection timed out")
      ⟨"GET", [("endpoint", "/api/v1/product/list")]⟩).1.status = 500 ∧
    (ruten_proxy cfgGood 1700000000 (fun _ => Transport.netError "Connection timed out")
      ⟨"GET", [("endpoint", "/api/v1/product/list")]⟩).1.status ≠ 503 :=
  ⟨rfl, rfl, by decide⟩

/-- C1 (amended): for every inbound GET `/api/ruten` request with a non-empty
endpoint and valid credentials, a transport-level network failure makes the
proxy respond with HTTP status 500 (not 503) and a JSON body containing a
`message` field. -/
theorem C1_network_failure_500 (cfg : Config) (hc : credsOk cfg = true)
    (now : Nat) (args : List (String × String)) (e d : String)
    (hl : args.lookup "endpoint" = some e) (he : e ≠ "") :
    (ruten_proxy cfg now (fun _ => Transport.netError d) ⟨"GET", args⟩).1 =
      ⟨500, Body.json (Json.obj [("message", Json.str ("請求失敗: " ++ d))])⟩ := by
  have hbe : (e == "") = false := beq_false_of_ne he
  simp [ruten_proxy, hl, truthy, hbe, _make_ruten_request, hc, errorStatus,
    errorMessage]

/-- C1 witness: the amended claim at a concrete timeout. -/
theorem C1_witness :
    (ruten_proxy cfgGood 1700000000 (fun _ => Transport.netError "Connection timed out")
      ⟨"GET", [("endpoint", "/api/v1/product/list")]⟩).1 =
      ⟨500, Body.json (Json.obj
        [("message", Json.str "請求失敗: Connection timed out")])⟩ :=
  C1_network_failure_500 cfgGood (by decide) 1700000000
    [("endpoint", "/api/v1/product/list")] "/api/v1/product/list"
    "Connection timed out" rfl (by decide)

/-- C2: the computed signature is the lowercase-hex HMAC-SHA256, keyed by the
secret key, of `saltKey ++ fullUrl ++ "" ++ timestamp` (the request body being
the empty string for GET); its characters are always lowercase hex digits; and
on the spec's test vector it equals the known-good digest (cross-checked
against a reference HMAC-SHA256 implementation). -/
theorem C2_signature_layout :
    (∀ secret salt url ts, signatureHex secret salt url ts =
        hmacSha256Hex (utf8Encode secret) (utf8Encode (salt ++ url ++ "" ++ ts))) ∧
    (∀ secret salt url ts,
        (signatureHex secret salt url ts).data.all isLowerHexDigit = true) ∧
    signatureHex "K" "S" "https://partner.example.tw/api/v1/x?a=1" "1000000000" =
      "2dc1fde36398c30050a022f5b04c9c57a2784c7fa0942c380e40aa02b1810d0d" := by
  refine ⟨fun secret salt url ts => ?_, fun secret salt url ts => ?_, by decide⟩
  · simp [signatureHex, signString]
  · exact bytesToHexLower_all (hmac_bytes_lt _ _)

/-- C3: with any credential missing (unset or empty), `_make_ruten_request`
raises before any network I/O on every call — zero upstream requests — and the
proxy endpoint responds 500 with no upstream call. -/
theorem C3_missing_credentials (cfg : Config) (hc : credsOk cfg = false) :
    (∀ now net endpoint params,
      _make_ruten_request cfg now net endpoint params =
        ⟨MakeResult.credsError "伺服器未設定露天 API 憑證", []⟩) ∧
    (∀ now net args e, args.lookup "endpoint" = some e → e ≠ "" →
      (ruten_proxy cfg now net ⟨"GET", args⟩).1.status = 500 ∧
      (ruten_proxy cfg now net ⟨"GET", args⟩).2 = []) := by
  constructor
  · intro now net endpoint params
    simp [_make_ruten_request, hc]
  · intro now net args e hl he
    have hbe : (e == "") = false := beq_false_of_ne he
    simp [ruten_proxy, hl, truthy, hbe, _make_ruten_request, hc, errorStatus]

/-- C3 witness: unset API key at concrete inputs. -/
theorem C3_witness :
    _make_ruten_request cfgBad 1700000000 (fun _ => Transport.netError "x")
        "/api/v1/product/list" [] =
      ⟨MakeResult.credsError "伺服器未設定露天 API 憑證", []⟩ ∧
    ((ruten_proxy cfgBad 1700000000 (fun _ => Transport.netError "x")
        ⟨"GET", [("endpoint", "/api/v1/product/list")]⟩).1.status = 500 ∧
      (ruten_proxy cfgBad 1700000000 (fun _ => Transport.netError "x")
        ⟨"GET", [("endpoint", "/api/v1/product/list")]⟩).2 = []) :=
  ⟨(C3_missing_credentials cfgBad (by decide)).1 1700000000 _ _ _,
   (C3_missing_credentials cfgBad (by decide)).2 1700000000 _ _
     "/api/v1/product/list" rfl (by decide)⟩

/-- C4: an absent or empty `endpoint` query parameter yields a 400 response
whose JSON body carries a non-empty `message`, with zero upstream calls. -/
theorem C4_missing_endpoint (cfg : Config) (now : Nat)
    (net : HttpRequest → Transport) (args : List (String × String))
    (h : args.lookup "endpoint" = none ∨ args.lookup "endpoint" = some "") :
    ruten_proxy cfg now net ⟨"GET", args⟩ =
      (⟨400, Body.json (Json.obj
        [("message", Json.str "錯誤：未提供目標 \x27endpoint\x27 參數")])⟩, []) ∧
    "錯誤：未提供目標 \x27endpoint\x27 參數" ≠ "" := by
  refine ⟨?_, by decide⟩
  rcases h with h | h <;> simp [ruten_proxy, h, truthy]

/-- C4 witness: a request with no `endpoint` parameter. -/
theorem C4_witness :
    ruten_proxy cfgGood 1700000000 (fun _ => Transport.netError "x")
        ⟨"GET", [("a", "1")]⟩ =
      (⟨400, Body.json (Json.obj
        [("message", Json.str "錯誤：未提供目標 \x27endpoint\x27 參數")])⟩, []) ∧
    "錯誤：未提供目標 \x27endpoint\x27 參數" ≠ "" :=
  C4_missing_endpoint cfgGood 1700000000 _ [("a", "1")] (Or.inl rfl)

/-- C5: sorting the query parameters is permutation-invariant, so the
canonical query string and the full URL are identical for any two insertion
orders of the same key/value pairs. -/
theorem C5_canonical_query_perm (l₁ l₂ : List (String × String))
    (endpoint : String) (h : l₁.Perm l₂) :
    urlencode (pySorted l₁) = urlencode (pySorted l₂) ∧
    fullUrlOf endpoint l₁ = fullUrlOf endpoint l₂ := by
  have hq : urlencode (pySorted l₁) = urlencode (pySorted l₂) :=
    congrArg urlencode (pySorted_perm_invariant h)
  exact ⟨hq, by rw [fullUrlOf, fullUrlOf, hq]⟩

/-- C5 witness: two insertion orders of the same two parameters. -/
theorem C5_witness :
    urlencode (pySorted [("b", "2"), ("a", "1")]) =
      urlencode (pySorted [("a", "1"), ("b", "2")]) ∧
    fullUrlOf "/api/v1/product/list" [("b", "2"), ("a", "1")] =
      fullUrlOf "/api/v1/product/list" [("a", "1"), ("b", "2")] :=
  C5_canonical_query_perm [("b", "2"), ("a", "1")] [("a", "1"), ("b", "2")]
    "/api/v1/product/list" (List.Perm.swap ("a", "1") ("b", "2") [])

/-- C6: for the product-list endpoint, `status=all` is injected exactly when
no `status` key is present among the forwarded parameters, an existing
`status` value is never overwritten, every other endpoint gets no default,
and (with valid credentials) the upstream call's URL is built from exactly
those forwarded parameters. -/
theorem C6_status_default (args : List (String × String)) :
    ((args.filter (fun kv => !(kv.1 == "endpoint"))).lookup "status" = none →
      requestParams "/api/v1/product/list" args =
        args.filter (fun kv => !(kv.1 == "endpoint")) ++ [("status", "all")]) ∧
    (∀ v, (args.filter (fun kv => !(kv.1 == "endpoint"))).lookup "status" = some v →
      requestParams "/api/v1/product/list" args =
        args.filter (fun kv => !(kv.1 == "endpoint")) ∧
      (requestParams "/api/v1/product/list" args).lookup "status" = some v) ∧
    (∀ endpoint, endpoint ≠ "/api/v1/product/list" →
      requestParams endpoint args = args.filter (fun kv => !(kv.1 == "endpoint"))) ∧
    (∀ cfg now net e, credsOk cfg = true → args.lookup "endpoint" = some e →
      e ≠ "" →
      ((ruten_proxy cfg now net ⟨"GET", args⟩).2).map HttpRequest.url =
        [fullUrlOf e (requestParams e args)]) := by
  refine ⟨fun h => ?_, fun v h => ?_, fun endpoint h => ?_, ?_⟩
  · simp [requestParams, setdefault, h]
  · exact ⟨by simp [requestParams, setdefault, h], by simp [requestParams, setdefault, h]⟩
  · simp [requestParams, beq_false_of_ne h]
  · intro cfg now net e hcr hl he
    have hbe : (e == "") = false := beq_false_of_ne he
    have hcalls := make_ruten_calls cfg hcr now net e (requestParams e args)
    cases hmk : _make_ruten_request cfg now net e (requestParams e args) with
    | mk res calls =>
        have hc2 : calls =
            [⟨"GET", fullUrlOf e (requestParams e args),
              [("User-Agent", "Ruten-Proxy-App/1.0"),
               ("X-RT-Key", cfg.API_KEY.getD ""),
               ("X-RT-Timestamp", toString now),
               ("X-RT-Authorization",
                signatureHex (cfg.SECRET_KEY.getD "") (cfg.SALT_KEY.getD "")
                  (fullUrlOf e (requestParams e args)) (toString now))], 20⟩] := by
          rw [hmk] at hcalls
          exact hcalls
        simp only [ruten_proxy, hl, truthy, hbe]
        simp [hmk, hc2]
        cases res <;> simp [hc2]

/-- C6 witness: the default is injected without `status`, preserved with it,
absent for another endpoint, and the upstream URL uses the forwarded
parameters. -/
theorem C6_witness :
    (requestParams "/api/v1/product/list"
        [("endpoint", "/api/v1/product/list"), ("offset", "1")] =
      [("offset", "1"), ("status", "all")]) ∧
    (requestParams "/api/v1/product/list"
        [("endpoint", "/api/v1/product/list"), ("status", "active")] =
        [("status", "active")] ∧
      (requestParams "/api/v1/product/list"
        [("endpoint", "/api/v1/product/list"), ("status", "active")]).lookup
          "status" = some "active") ∧
    (requestParams "/api/v1/item/get"
        [("endpoint", "/api/v1/item/get"), ("offset", "1")] =
      [("offset", "1")]) ∧
    ((ruten_proxy cfgGood 1700000000 (fun _ => Transport.netError "x")
        ⟨"GET", [("endpoint", "/api/v1/product/list"), ("offset", "1")]⟩).2).map
          HttpRequest.url =
      [fullUrlOf "/api/v1/product/list"
        (requestParams "/api/v1/product/list"
          [("endpoint", "/api/v1/product/list"), ("offset", "1")])] :=
  ⟨(C6_status_default [("endpoint", "/api/v1/product/list"), ("offset", "1")]).1
      rfl,
   (C6_status_default [("endpoint", "/api/v1/product/list"), ("status", "active")]).2.1
      "active" rfl,
   (C6_status_default [("endpoint", "/api/v1/item/get"), ("offset", "1")]).2.2.1
      "/api/v1/item/get" (by decide),
   (C6_status_default [("endpoint", "/api/v1/product/list"), ("offset", "1")]).2.2.2
      cfgGood 1700000000 _ "/api/v1/product/list" (by decide) rfl (by decide)⟩

/-- C7 counterexample: an upstream 304 — a non-2xx status — whose body parses
as JSON is outside `raise_for_status`'s 400..599 range, so the proxy returns
the parsed body with status 200 instead of passing 304 through. -/
theorem C7_counterexample_non2xx :
    ¬(200 ≤ 304 ∧ 304 < 300) ∧
    (ruten_proxy cfgGood 1700000000
      (fun _ => Transport.response 304 (Except.ok (Json.obj
        [("error_msg", Json.str "not found")])))
      ⟨"GET", [("endpoint", "/api/v1/product/list")]⟩).1.status = 200 ∧
    (ruten_proxy cfgGood 1700000000
      (fun _ => Transport.response 304 (Except.ok (Json.obj
        [("error_msg", Json.str "not found")])))
      ⟨"GET", [("endpoint", "/api/v1/product/list")]⟩).1.status ≠ 304 :=
  ⟨by decide, rfl, by decide⟩

/-- C7 (amended): for upstream responses with a 4xx/5xx status — the statuses
`raise_for_status` raises on — the proxy passes the upstream status through.
When the body parses as a JSON object containing `error_msg`, the response
message contains that value (interpolated with `str()`, so a string value
appears verbatim); otherwise a generic fallback is returned: the fixed
unparseable-error text when the object lacks `error_msg`, and `str()` of the
`HTTPError` when the body is not a JSON object or fails to decode.  For other
non-2xx statuses (e.g. 304) the pass-through does not apply. -/
theorem C7_http_error_passthrough (cfg : Config) (hc : credsOk cfg = true)
    (now : Nat) (args : List (String × String)) (e : String) (st : Nat)
    (jsonBody : Except String Json)
    (hl : args.lookup "endpoint" = some e) (he : e ≠ "")
    (h4 : 400 ≤ st) (h6 : st < 600) :
    (ruten_proxy cfg now (fun _ => Transport.response st jsonBody)
        ⟨"GET", args⟩).1.status = st ∧
    (∀ kvs v, jsonBody = Except.ok (Json.obj kvs) →
      kvs.lookup "error_msg" = some v →
      (ruten_proxy cfg now (fun _ => Transport.response st jsonBody)
        ⟨"GET", args⟩).1.body =
        Body.json (Json.obj [("message", Json.str ("請求失敗: " ++ pyStr v))])) ∧
    (∀ kvs, jsonBody = Except.ok (Json.obj kvs) →
      kvs.lookup "error_msg" = none →
      (ruten_proxy cfg now (fun _ => Transport.response st jsonBody)
        ⟨"GET", args⟩).1.body =
        Body.json (Json.obj
          [("message", Json.str "請求失敗: 露天 API 回傳了一個無法解析的錯誤")])) ∧
    (∀ j, jsonBody = Except.ok j → (∀ kvs, j ≠ Json.obj kvs) →
      (ruten_proxy cfg now (fun _ => Transport.response st jsonBody)
        ⟨"GET", args⟩).1.body =
        Body.json (Json.obj
          [("message", Json.str ("請求失敗: " ++
            httpErrorStr st (fullUrlOf e (requestParams e args))))])) ∧
    (∀ emsg, jsonBody = Except.error emsg →
      (ruten_proxy cfg now (fun _ => Transport.response st jsonBody)
        ⟨"GET", args⟩).1.body =
        Body.json (Json.obj
          [("message", Json.str ("請求失敗: " ++
            httpErrorStr st (fullUrlOf e (requestParams e args))))])) := by
  have hbe : (e == "") = false := beq_false_of_ne he
  have hst : 400 ≤ st ∧ st < 600 := ⟨h4, h6⟩
  refine ⟨?_, ?_, ?_, ?_, ?_⟩
  · simp [ruten_proxy, hl, truthy, hbe, _make_ruten_request, hc, errorStatus, hst]
  · intro kvs v hj hk
    subst hj
    simp [ruten_proxy, hl, truthy, hbe, _make_ruten_request, hc, errorStatus,
      errorMessage, hst, hk]
  · intro kvs hj hk
    subst hj
    simp [ruten_proxy, hl, truthy, hbe, _make_ruten_request, hc, errorStatus,
      errorMessage, hst, hk]
  · intro j hj hne
    subst hj
    cases j with
    | obj kvs => exact absurd rfl (hne kvs)
    | null =>
        simp [ruten_proxy, hl, truthy, hbe, _make_ruten_request, hc,
          errorStatus, errorMessage, hst, fullUrlOf]
    | bool b =>
        simp [ruten_proxy, hl, truthy, hbe, _make_ruten_request, hc,
          errorStatus, errorMessage, hst, fullUrlOf]
    | num n =>
        simp [ruten_proxy, hl, truthy, hbe, _make_ruten_request, hc,
          errorStatus, errorMessage, hst, fullUrlOf]
    | str s =>
        simp [ruten_proxy, hl, truthy, hbe, _make_ruten_request, hc,
          errorStatus, errorMessage, hst, fullUrlOf]
    | arr xs =>
        simp [ruten_proxy, hl, truthy, hbe, _make_ruten_request, hc,
          errorStatus, errorMessage, hst, fullUrlOf]
  · intro emsg hj
    subst hj
    simp [ruten_proxy, hl, truthy, hbe, _make_ruten_request, hc, errorStatus,
      errorMessage, hst, fullUrlOf]

/-- C7 witness: an upstream 404 with `error_msg` "not found" yields a 404
response whose message contains "not found"; an object body without
`error_msg` yields the fixed fallback message, and an undecodable body yields
the `str()` of the `HTTPError`. -/
theorem C7_witness :
    (ruten_proxy cfgGood 1700000000
        (fun _ => Transport.response 404 (Except.ok (Json.obj
          [("error_msg", Json.str "not found")])))
        ⟨"GET", [("endpoint", "/api/v1/product/list")]⟩).1.status = 404 ∧
    (ruten_proxy cfgGood 1700000000
        (fun _ => Transport.response 404 (Except.ok (Json.obj
          [("error_msg", Json.str "not found")])))
        ⟨"GET", [("endpoint", "/api/v1/product/list")]⟩).1.body =
      Body.json (Json.obj [("message", Json.str "請求失敗: not found")]) ∧
    (ruten_proxy cfgGood 1700000000
        (fun _ => Transport.response 404 (Except.ok (Json.obj
          [("other", Json.num 1)])))
        ⟨"GET", [("endpoint", "/api/v1/product/list")]⟩).1.body =
      Body.json (Json.obj
        [("message", Json.str "請求失敗: 露天 API 回傳了一個無法解析的錯誤")]) ∧
    (ruten_proxy cfgGood 1700000000
        (fun _ => Transport.response 404
          (Except.error "Expecting value: line 1 column 1 (char 0)"))
        ⟨"GET", [("endpoint", "/api/v1/product/list")]⟩).1.body =
      Body.json (Json.obj
        [("message", Json.str ("請求失敗: " ++ httpErrorStr 404
          (fullUrlOf "/api/v1/product/list"
            (requestParams "/api/v1/product/list"
              [("endpoint", "/api/v1/product/list")]))))]) :=
  ⟨(C7_http_error_passthrough cfgGood (by decide) 1700000000
      [("endpoint", "/api/v1/product/list")] "/api/v1/product/list" 404
      (Except.ok (Json.obj [("error_msg", Json.str "not found")]))
      rfl (by decide) (by decide) (by decide)).1,
   (C7_http_error_passthrough cfgGood (by decide) 1700000000
      [("endpoint", "/api/v1/product/list")] "/api/v1/product/list" 404
      (Except.ok (Json.obj [("error_msg", Json.str "not found")]))
      rfl (by decide) (by decide) (by decide)).2.1
      [("error_msg", Json.str "not found")] (Json.str "not found") rfl rfl,
   (C7_http_error_passthrough cfgGood (by decide) 1700000000
      [("endpoint", "/api/v1/product/list")] "/api/v1/product/list" 404
      (Except.ok (Json.obj [("other", Json.num 1)]))
      rfl (by decide) (by decide) (by decide)).2.2.1
      [("other", Json.num 1)] rfl rfl,
   (C7_http_error_passthrough cfgGood (by decide) 1700000000
      [("endpoint", "/api/v1/product/list")] "/api/v1/product/list" 404
      (Except.error "Expecting value: line 1 column 1 (char 0)")
      rfl (by decide) (by decide) (by decide)).2.2.2.2
      "Expecting value: line 1 column 1 (char 0)" rfl⟩

/-- C8: with credentials present every upstream dispatch is a single GET to
the canonical URL carrying exactly the fixed user-agent, `X-RT-Key` (raw API
key), `X-RT-Timestamp` and `X-RT-Authorization` (the signature) headers with a
20-second timeout; and every inbound request causes at most one upstream
attempt. -/
theorem C8_single_dispatch (cfg : Config) (hc : credsOk cfg = true) (now : Nat)
    (net : HttpRequest → Transport) (endpoint : String)
    (params : List (String × String)) :
    (_make_ruten_request cfg now net endpoint params).calls =
      [⟨"GET", fullUrlOf endpoint params,
        [("User-Agent", "Ruten-Proxy-App/1.0"),
         ("X-RT-Key", cfg.API_KEY.getD ""),
         ("X-RT-Timestamp", toString now),
         ("X-RT-Authorization",
          signatureHex (cfg.SECRET_KEY.getD "") (cfg.SALT_KEY.getD "")
            (fullUrlOf endpoint params) (toString now))], 20⟩] ∧
    (∀ cfg2 now2 net2 inb, ((ruten_proxy cfg2 now2 net2 inb).2).length ≤ 1) :=
  ⟨make_ruten_calls cfg hc now net endpoint params,
   fun cfg2 now2 net2 inb => ruten_proxy_calls_le_one cfg2 now2 net2 inb⟩

/-- C8 witness: the dispatch shape at concrete inputs. -/
theorem C8_witness :
    (_make_ruten_request cfgGood 1700000000 (fun _ => Transport.netError "x")
        "/api/v1/product/list" [("status", "all")]).calls =
      [⟨"GET", fullUrlOf "/api/v1/product/list" [("status", "all")],
        [("User-Agent", "Ruten-Proxy-App/1.0"),
         ("X-RT-Key", cfgGood.API_KEY.getD ""),
         ("X-RT-Timestamp", toString 1700000000),
         ("X-RT-Authorization",
          signatureHex (cfgGood.SECRET_KEY.getD "") (cfgGood.SALT_KEY.getD "")
            (fullUrlOf "/api/v1/product/list" [("status", "all")])
            (toString 1700000000))], 20⟩] :=
  (C8_single_dispatch cfgGood (by decide) 1700000000
    (fun _ => Transport.netError "x") "/api/v1/product/list"
    [("status", "all")]).1

/-- C9: an OPTIONS request to `/api/ruten` or `/api/verify` returns 200 with
an empty body immediately — no validation, no credential check, no upstream
call. -/
theorem C9_options_shortcircuit (cfg : Config) (now : Nat)
    (net : HttpRequest → Transport) (args : List (String × String)) :
    ruten_proxy cfg now net ⟨"OPTIONS", args⟩ = (⟨200, Body.empty⟩, []) ∧
    verify_credentials cfg now net "OPTIONS" = (⟨200, Body.empty⟩, []) :=
  ⟨rfl, rfl⟩

/-- C10: a 2xx upstream response whose body fails to parse as JSON does not
yield Success: the handler catches the decode exception and returns 500 with a
well-formed JSON body carrying a `message` field. -/
theorem C10_invalid_json_500 (cfg : Config) (hc : credsOk cfg = true)
    (now : Nat) (args : List (String × String)) (e emsg : String) (st : Nat)
    (hl : args.lookup "endpoint" = some e) (he : e ≠ "")
    (h2 : 200 ≤ st) (h3 : st < 300) :
    (ruten_proxy cfg now (fun _ => Transport.response st (Except.error emsg))
        ⟨"GET", args⟩).1 =
      ⟨500, Body.json (Json.obj [("message", Json.str ("請求失敗: " ++ emsg))])⟩ := by
  have hbe : (e == "") = false := beq_false_of_ne he
  have hst : ¬(400 ≤ st ∧ st < 600) := by omega
  simp [ruten_proxy, hl, truthy, hbe, _make_ruten_request, hc, errorStatus,
    errorMessage, hst]

/-- C10 witness: a 200 response with an undecodable body. -/
theorem C10_witness :
    (ruten_proxy cfgGood 1700000000
        (fun _ => Transport.response 200
          (Except.error "Expecting value: line 1 column 1 (char 0)"))
        ⟨"GET", [("endpoint", "/api/v1/product/list")]⟩).1 =
      ⟨500, Body.json (Json.obj
        [("message", Json.str
          "請求失敗: Expecting value: line 1 column 1 (char 0)")])⟩ :=
  C10_invalid_json_500 cfgGood (by decide) 1700000000
    [("endpoint", "/api/v1/product/list")] "/api/v1/product/list"
    "Expecting value: line 1 column 1 (char 0)" 200 rfl (by decide)
    (by decide) (by decide)

end Ruten
